import Mathlib

/-!
Verification of the pipeweaver-app single-instance coordination and
local control-channel subsystem, as a shallow embedding of the Rust
sources (src/main.rs, src/window_handler.rs, src/window_properties.rs).

I/O-bearing functions are embedded as pure functions over an explicit
world describing the outcomes the operating system can deliver
(file existence, connect success, read results, ...), returning the
value of the function together with a trace of the externally visible
actions it performs.
-/

namespace Pipeweaver

/-- Window Message variants (window_handler.rs, `enum WindowMessage`). -/
inductive WindowMessage
| Trigger
| Close
deriving DecidableEq

/-- The fixed application name (main.rs, `const APP_NAME`). -/
def APP_NAME : String := "pipeweaver-app"

/-! ### Session rendezvous address (main.rs, `get_socket_file_path`) -/

/-- The environment visible to `get_socket_file_path`: the user's runtime
directory (absent when unavailable) and the temp directory, each as a list
of path components. -/
structure Env where
  runtimeDir : Option (List String)
  tempDir : List String
deriving DecidableEq

/-- Embedding of `get_socket_file_path`: take the runtime directory,
falling back to the temp directory, and push `"{APP_NAME}.sock"`
(written here as an explicit append). -/
def get_socket_file_path (e : Env) : List String :=
  let path := match e.runtimeDir with
    | some d => d
    | none => e.tempDir
  path ++ [APP_NAME ++ ".sock"]

/-! ### Single-instance detector (main.rs, `handle_active_instance`) -/

/-- Outcomes the filesystem/socket layer can deliver to
`handle_active_instance`: does the socket file exist, does
`UnixStream::connect` succeed, does `write_all` succeed. -/
structure InstWorld where
  socketExists : Bool
  connectOk : Bool
  writeOk : Bool
deriving DecidableEq

/-- Externally visible actions of `handle_active_instance`. The `write`
action records the payload and whether the underlying write succeeded
(the code discards that result with `let _ = ...`). -/
inductive InstAction
| connectAttempt
| write (payload : String) (ok : Bool)
| removeFile
deriving DecidableEq

/-- Embedding of `handle_active_instance`: if the socket file does not
exist, return false at once; otherwise attempt to connect; on success
write `"TRIGGER"` (result discarded) and return true; on failure remove
the stale socket file and return false. -/
def handle_active_instance (w : InstWorld) : Bool × List InstAction :=
  if w.socketExists = false then
    (false, [])
  else if w.connectOk then
    (true, [InstAction.connectAttempt, InstAction.write "TRIGGER" w.writeOk])
  else
    (false, [InstAction.connectAttempt, InstAction.removeFile])

/-! ### Startup sequence (main.rs, `real_main` and `main`) -/

/-- Observable outcome of `real_main`: which background threads were
spawned, whether the UI engine was constructed, and the returned
`Result`. -/
structure MainResult where
  spawnedWebsocket : Bool
  spawnedIpc : Bool
  constructedUi : Bool
  result : Except String Unit

/-- Embedding of `real_main`, parameterised by the instance-detection
world and by the Liveness Result received from the websocket thread
over the one-shot channel. If `handle_active_instance` reports an
active instance, return `Ok(())` at once. Otherwise spawn the
websocket thread and block on the Liveness Result: on failure, bail
before the IPC thread is spawned or the UI engine is built; on
success, spawn the IPC thread and build the UI. -/
def real_main (iw : InstWorld) (liveness : Except String Unit) : MainResult :=
  if (handle_active_instance iw).1 then
    ⟨false, false, false, Except.ok ()⟩
  else
    match liveness with
    | Except.error _ =>
        ⟨true, false, false,
         Except.error "Cannot Start, Pipeweaver is not running.   "⟩
    | Except.ok _ =>
        ⟨true, true, true, Except.ok ()⟩

/-- Embedding of `main`: forwards an error from `real_main` (after
displaying it), so the process exit status is non-zero exactly when
`real_main` returned an error. -/
def main_fn (iw : InstWorld) (liveness : Except String Unit) : Except String Unit :=
  match (real_main iw liveness).result with
  | Except.error e => Except.error e
  | Except.ok _ => Except.ok ()

/-! ### Local control listener (main.rs, `ipc_thread_main`) -/

/-- Result of `stream.read_to_string` on one accepted connection:
either the full body as a string, or a read error. -/
inductive ReadResult
| ok (msg : String)
| err
deriving DecidableEq

/-- One outcome of `listener.accept` inside the IPC loop: an accepted
connection with its read result, a would-block error (the non-blocking
accept found nothing), or any other (fatal) accept error. -/
inductive AcceptEvent
| conn (r : ReadResult)
| wouldBlock
| fatal
deriving DecidableEq

/-- Window Messages produced for one accepted connection: on a read
error nothing is sent; otherwise `Trigger` is sent exactly when the
body equals `"TRIGGER"`. -/
def conn_messages : ReadResult → List WindowMessage
| ReadResult.err => []
| ReadResult.ok msg => if msg = "TRIGGER" then [WindowMessage.Trigger] else []

/-- Embedding of the IPC accept loop over a finite prefix of accept
outcomes: returns the Window Messages sent in order and whether the
loop exited (it breaks only on a fatal accept error; a would-block
outcome sleeps and continues; a connection is handled and the loop
continues). When the prefix is exhausted without a fatal error the
loop is still running (`false`). -/
def ipc_loop : List AcceptEvent → List WindowMessage × Bool
| [] => ([], false)
| AcceptEvent.conn r :: rest =>
    let t := ipc_loop rest
    (conn_messages r ++ t.1, t.2)
| AcceptEvent.wouldBlock :: rest => ipc_loop rest
| AcceptEvent.fatal :: _ => ([], true)

/-- Outcomes the OS can deliver to `ipc_thread_main`: whether
`create_dir_all` succeeds, whether a stale socket file pre-exists,
whether `bind` succeeds, whether `set_nonblocking` succeeds, and the
accept outcomes observed by the loop. -/
structure IpcWorld where
  createDirOk : Bool
  preExisting : Bool
  bindOk : Bool
  setNonblockingOk : Bool
  events : List AcceptEvent
deriving DecidableEq

/-- Externally visible filesystem/socket actions of `ipc_thread_main`,
in program order. `removeExisting` is the pre-bind removal of a stale
file; `removeSocket` is the final cleanup removal. -/
inductive IpcAction
| createDir
| removeExisting
| bind
| setNonblocking
| removeSocket
deriving DecidableEq

/-- Observable outcome of `ipc_thread_main`: the ordered action trace,
the Window Messages sent, whether the thread function returned
(`exited`), and its `Result` value when it did. -/
structure IpcResult where
  actions : List IpcAction
  sent : List WindowMessage
  exited : Bool
  result : Except String Unit

/-- Embedding of `ipc_thread_main`. The parent directory is created
(bailing on failure); a pre-existing socket file is removed; the
listener binds (bailing on failure); `set_nonblocking(true)?`
propagates its error with an early return; then the accept loop runs,
and when it breaks the socket file is removed and `Ok(())` is
returned. -/
def ipc_thread_main (w : IpcWorld) : IpcResult :=
  if w.createDirOk = false then
    ⟨[IpcAction.createDir], [], true, Except.error "Failed to Open IPC Socket"⟩
  else
    let pre := if w.preExisting then [IpcAction.removeExisting] else []
    let acts := IpcAction.createDir :: pre
    if w.bindOk = false then
      ⟨acts ++ [IpcAction.bind], [], true, Except.error "Failed to bind to socket"⟩
    else if w.setNonblockingOk = false then
      ⟨acts ++ [IpcAction.bind, IpcAction.setNonblocking], [], true,
       Except.error "set_nonblocking failed"⟩
    else
      let t := ipc_loop w.events
      if t.2 then
        ⟨acts ++ [IpcAction.bind, IpcAction.setNonblocking, IpcAction.removeSocket],
         t.1, true, Except.ok ()⟩
      else
        ⟨acts ++ [IpcAction.bind, IpcAction.setNonblocking], t.1, false, Except.ok ()⟩

/-- The listener reached a successful bind in world `w`. -/
def ipc_bound (w : IpcWorld) : Prop :=
  w.createDirOk = true ∧ w.bindOk = true

instance (w : IpcWorld) : Decidable (ipc_bound w) := by
  unfold ipc_bound
  infer_instance

/-! ### Liveness channel client (main.rs, `websocket_main_thread`) -/

/-- Websocket frames as seen by the read loop, with ping/pong payloads
as byte lists. `other` stands for every frame the loop treats as a
no-op (text, binary, received pong, ...). -/
inductive WsMessage
| ping (payload : List Nat)
| pong (payload : List Nat)
| close
| other
deriving DecidableEq

/-- One outcome of `socket.read()` inside the read loop. -/
inductive WsReadEvent
| msg (m : WsMessage)
| errConnectionClosed
| errProtocol
| errOther
deriving DecidableEq

/-- Embedding of the websocket read loop over a finite prefix of read
outcomes: returns the frames sent back (the pong answers, in order)
and whether the loop exited. A ping is answered with a pong carrying
the same payload and the loop continues; a close frame or any read
error breaks; every other frame is ignored. When the prefix is
exhausted without a break the loop is still running (`false`). -/
def ws_loop : List WsReadEvent → List WsMessage × Bool
| [] => ([], false)
| WsReadEvent.msg (WsMessage.ping p) :: rest =>
    let t := ws_loop rest
    (WsMessage.pong p :: t.1, t.2)
| WsReadEvent.msg WsMessage.close :: _ => ([], true)
| WsReadEvent.msg _ :: rest => ws_loop rest
| WsReadEvent.errConnectionClosed :: _ => ([], true)
| WsReadEvent.errProtocol :: _ => ([], true)
| WsReadEvent.errOther :: _ => ([], true)

/-- Outcomes the network layer can deliver to `websocket_main_thread`:
whether the `Uri` builder succeeds, whether `connect` succeeds, and
the read outcomes observed by the loop. -/
structure WsWorld where
  uriOk : Bool
  connectOk : Bool
  events : List WsReadEvent
deriving DecidableEq

/-- Observable outcome of `websocket_main_thread`: the Liveness
Results sent on the one-shot channel (in order), the frames sent back
on the socket, the Window Messages sent to the relay, and whether the
thread function returned. -/
structure WsResult where
  liveness : List (Except String Unit)
  framesSent : List WsMessage
  sent : List WindowMessage
  terminated : Bool

/-- Embedding of `websocket_main_thread`. A Uri-build or connect
failure sends one failure Liveness Result and returns; on success one
success Liveness Result is sent, the read loop runs, and when it
breaks a single `Close` Window Message is sent to the relay before the
thread returns. -/
def websocket_main_thread (w : WsWorld) : WsResult :=
  if w.uriOk = false then
    ⟨[Except.error "uri build failed"], [], [], true⟩
  else if w.connectOk = false then
    ⟨[Except.error "connect failed"], [], [], true⟩
  else
    let t := ws_loop w.events
    if t.2 then
      ⟨[Except.ok ()], t.1, [WindowMessage.Close], true⟩
    else
      ⟨[Except.ok ()], t.1, [], false⟩

/-! ### UI event sink (window_handler.rs, `check_notifications`) -/

/-- The UI-visible signals `WindowHandler` can raise. -/
inductive UiAction
| trigger
| close
deriving DecidableEq

/-- The UI action invoked for one Window Message (the match inside
`check_notifications`: `Trigger` calls `on_trigger`, `Close` calls
`on_close`). -/
def msgAction : WindowMessage → UiAction
| WindowMessage.Trigger => UiAction.trigger
| WindowMessage.Close => UiAction.close

/-- Embedding of `check_notifications` over the relay queue (the mpsc
buffer as a list, head = oldest): `while let Ok(msg) = rx.try_recv()`
pops messages until the queue is empty, invoking one UI action per
message. Returns the UI actions invoked in order and the queue left
behind. -/
def check_notifications : List WindowMessage → List UiAction × List WindowMessage
| [] => ([], [])
| m :: rest =>
    let t := check_notifications rest
    (msgAction m :: t.1, t.2)

/-! ### Window geometry (window_properties.rs, `load_geometry`) -/

/-- Embedding of `struct WindowGeometry` (i32 fields, modelled as Int:
the values involved are far from the i32 bounds). -/
structure WindowGeometry where
  width : Int
  height : Int
  x : Int
  y : Int
deriving DecidableEq

/-- Embedding of `load_geometry`, parameterised by the outcome of
`fs::read_to_string` (`none` = absent or unreadable) and by the
serde_json parse of the content (external collaborator, `none` = not
valid JSON for the geometry shape). Returns the parsed geometry when
both succeed, and the fixed default `1000x600 at (100, 100)`
otherwise. -/
def load_geometry (readResult : Option String)
    (parse : String → Option WindowGeometry) : WindowGeometry :=
  match readResult with
  | some content =>
      match parse content with
      | some geometry => geometry
      | none => ⟨1000, 600, 100, 100⟩
  | none => ⟨1000, 600, 100, 100⟩

/-! ### Theorems -/

/-- C1: `handle_active_instance` is a three-way case split: if the
rendezvous socket file does not exist it returns false without
attempting any connection; if it exists and the connection succeeds it
writes the literal "TRIGGER" and returns true; if it exists and the
connection fails it removes the rendezvous file and returns false. -/
theorem handle_active_instance_three_way (w : InstWorld) :
    (w.socketExists = false → handle_active_instance w = (false, []))
    ∧ (w.socketExists = true → w.connectOk = true →
        handle_active_instance w
          = (true, [InstAction.connectAttempt, InstAction.write "TRIGGER" w.writeOk]))
    ∧ (w.socketExists = true → w.connectOk = false →
        handle_active_instance w
          = (false, [InstAction.connectAttempt, InstAction.removeFile])) := by
  rcases w with ⟨se, co, wo⟩
  cases se <;> cases co <;> simp [handle_active_instance]

/-- C1 witness: in the world with no socket file, the detector returns
false with an empty action trace. -/
theorem handle_active_instance_three_way_witness :
    handle_active_instance ⟨false, false, false⟩ = (false, []) :=
  (handle_active_instance_three_way ⟨false, false, false⟩).1 rfl

/-- C9: when the socket file exists and the connection succeeds, the
result of writing "TRIGGER" is discarded: the detector returns true
whether the write succeeds or fails, and `real_main` then exits
`Ok(())` without spawning the IPC listener or constructing the UI. -/
theorem handle_active_instance_write_discarded (w : InstWorld)
    (liveness : Except String Unit)
    (h1 : w.socketExists = true) (h2 : w.connectOk = true) :
    (handle_active_instance w).1 = true
    ∧ (handle_active_instance (InstWorld.mk w.socketExists w.connectOk true)).1
        = (handle_active_instance (InstWorld.mk w.socketExists w.connectOk false)).1
    ∧ (real_main w liveness).spawnedIpc = false
    ∧ (real_main w liveness).constructedUi = false
    ∧ (real_main w liveness).result = Except.ok () := by
  refine ⟨?_, ?_, ?_, ?_, ?_⟩ <;>
    simp [handle_active_instance, real_main, h1, h2]

/-- C9 witness: with a failing write, the detector still returns true
and `real_main` still exits without constructing the UI. -/
theorem handle_active_instance_write_discarded_witness :
    (handle_active_instance ⟨true, true, false⟩).1 = true
    ∧ (real_main ⟨true, true, false⟩ (Except.ok ())).constructedUi = false :=
  ⟨(handle_active_instance_write_discarded ⟨true, true, false⟩ (Except.ok ()) rfl rfl).1,
   (handle_active_instance_write_discarded ⟨true, true, false⟩ (Except.ok ()) rfl rfl).2.2.2.1⟩

/-- C4: when no active instance was detected and the received Liveness
Result is a failure, the IPC listener thread is never spawned, the UI
engine is never constructed, and the process exits with a non-zero
status (`main` returns the error). -/
theorem liveness_failure_no_listener_no_ui (iw : InstWorld) (e : String)
    (h : (handle_active_instance iw).1 = false) :
    (real_main iw (Except.error e)).spawnedIpc = false
    ∧ (real_main iw (Except.error e)).constructedUi = false
    ∧ main_fn iw (Except.error e)
        = Except.error "Cannot Start, Pipeweaver is not running.   " := by
  refine ⟨?_, ?_, ?_⟩ <;> simp [main_fn, real_main, h]

/-- C4 witness: at a concrete world with no socket file and a failed
liveness connection, no listener and no UI, and `main` errors out. -/
theorem liveness_failure_no_listener_no_ui_witness :
    (real_main ⟨false, false, false⟩ (Except.error "connect failed")).spawnedIpc = false
    ∧ (real_main ⟨false, false, false⟩ (Except.error "connect failed")).constructedUi
        = false :=
  ⟨(liveness_failure_no_listener_no_ui ⟨false, false, false⟩ "connect failed" rfl).1,
   (liveness_failure_no_listener_no_ui ⟨false, false, false⟩ "connect failed" rfl).2.1⟩

/-- C6: `check_notifications` drains the relay queue until it is empty,
consuming every pending Window Message exactly once in queue order and
invoking exactly one UI action per message (`msgAction` maps `Trigger`
to the trigger signal and `Close` to the close signal). -/
theorem check_notifications_drains (q : List WindowMessage) :
    (check_notifications q).2 = []
    ∧ (check_notifications q).1 = q.map msgAction := by
  induction q with
  | nil => exact ⟨rfl, rfl⟩
  | cons m rest ih =>
      refine ⟨ih.1, ?_⟩
      simp [check_notifications, ih.2]

/-- C8: `get_socket_file_path` is deterministic — two calls in the
same environment return the same path — and the path is the runtime
directory (or, when unavailable, the temp directory) joined with the
fixed file name "pipeweaver-app.sock". -/
theorem get_socket_file_path_deterministic (e e' : Env) (h : e = e') :
    get_socket_file_path e = get_socket_file_path e'
    ∧ get_socket_file_path e
        = (match e.runtimeDir with
            | some d => d
            | none => e.tempDir) ++ ["pipeweaver-app.sock"] := by
  subst h
  refine ⟨rfl, ?_⟩
  rcases e with ⟨rd, td⟩
  cases rd <;> simp [get_socket_file_path, APP_NAME]

/-- C8 witness: a concrete environment with a runtime directory. -/
theorem get_socket_file_path_deterministic_witness :
    get_socket_file_path ⟨some ["run", "user"], ["tmp"]⟩
      = ["run", "user", "pipeweaver-app.sock"] :=
  (get_socket_file_path_deterministic ⟨some ["run", "user"], ["tmp"]⟩
    ⟨some ["run", "user"], ["tmp"]⟩ rfl).2

/-- C10: `load_geometry` never fails: when the config file is absent
or unreadable, or its content does not parse as a geometry, it returns
the fixed default `width=1000, height=600, x=100, y=100`; otherwise it
returns exactly the parsed values. -/
theorem load_geometry_never_fails (readResult : Option String)
    (parse : String → Option WindowGeometry) :
    (readResult = none → load_geometry readResult parse = ⟨1000, 600, 100, 100⟩)
    ∧ (∀ c, readResult = some c → parse c = none →
        load_geometry readResult parse = ⟨1000, 600, 100, 100⟩)
    ∧ (∀ c g, readResult = some c → parse c = some g →
        load_geometry readResult parse = g) := by
  refine ⟨?_, ?_, ?_⟩
  · intro h
    simp [load_geometry, h]
  · intro c h hp
    simp [load_geometry, h, hp]
  · intro c g h hp
    simp [load_geometry, h, hp]

/-- C10 witness: an absent file yields the default geometry; a parsed
file yields exactly the stored values. -/
theorem load_geometry_never_fails_witness :
    load_geometry none (fun _ => none) = ⟨1000, 600, 100, 100⟩
    ∧ load_geometry (some "x") (fun _ => some ⟨1, 2, 3, 4⟩) = ⟨1, 2, 3, 4⟩ :=
  ⟨(load_geometry_never_fails none (fun _ => none)).1 rfl,
   (load_geometry_never_fails (some "x") (fun _ => some ⟨1, 2, 3, 4⟩)).2.2 "x"
     ⟨1, 2, 3, 4⟩ rfl rfl⟩

/-- C2: for each accepted connection, exactly one `Trigger` Window
Message is enqueued if and only if the read succeeds and the body
equals "TRIGGER"; for any other body or a read failure nothing is
enqueued; in every case the listener loop continues (the connection
case never sets the exit flag, which remains whatever the remaining
events produce). -/
theorem ipc_conn_exactly_one_trigger (r : ReadResult) (rest : List AcceptEvent) :
    ipc_loop (AcceptEvent.conn r :: rest)
      = (conn_messages r ++ (ipc_loop rest).1, (ipc_loop rest).2)
    ∧ (conn_messages r = [WindowMessage.Trigger] ↔ r = ReadResult.ok "TRIGGER")
    ∧ (∀ msg, r = ReadResult.ok msg → msg ≠ "TRIGGER" → conn_messages r = [])
    ∧ (r = ReadResult.err → conn_messages r = []) := by
  refine ⟨rfl, ?_, ?_, ?_⟩
  · cases r with
    | err => simp [conn_messages]
    | ok msg => by_cases h : msg = "TRIGGER" <;> simp [conn_messages, h]
  · intro msg h hne
    subst h
    simp [conn_messages, hne]
  · intro h
    subst h
    rfl

/-- C2 witness: the body "TRIGGER" enqueues exactly one `Trigger`; the
body "NOPE" enqueues nothing. -/
theorem ipc_conn_exactly_one_trigger_witness :
    conn_messages (ReadResult.ok "TRIGGER") = [WindowMessage.Trigger]
    ∧ conn_messages (ReadResult.ok "NOPE") = [] :=
  ⟨(ipc_conn_exactly_one_trigger (ReadResult.ok "TRIGGER") []).2.1.mpr rfl,
   (ipc_conn_exactly_one_trigger (ReadResult.ok "NOPE") []).2.2.1 "NOPE" rfl
     (by decide)⟩

/-- C3 counterexample: in the world where the directory is created and
the bind succeeds but `set_nonblocking` fails, the thread function
exits (the `?` operator propagates the error with an early return)
without removing the rendezvous socket file — so the removal does NOT
happen on every exit path after a successful bind. -/
theorem ipc_setnonblocking_skips_cleanup :
    ipc_bound (IpcWorld.mk true false true false [])
    ∧ (ipc_thread_main (IpcWorld.mk true false true false [])).exited = true
    ∧ IpcAction.removeSocket
        ∉ (ipc_thread_main (IpcWorld.mk true false true false [])).actions := by
  refine ⟨⟨rfl, rfl⟩, rfl, ?_⟩
  decide

/-- C3 (amended): on every exit path of the IPC thread after a
successful bind in which `set_nonblocking` also succeeded — in
particular on the accept-loop exit path, whether by fatal error break —
the rendezvous socket file is removed before the thread function
returns (and the thread returns `Ok(())`); the one exception, excluded
here, is the early return when `set_nonblocking` itself fails. -/
theorem ipc_cleanup_after_bind (w : IpcWorld)
    (hc : w.createDirOk = true) (hb : w.bindOk = true)
    (hn : w.setNonblockingOk = true)
    (hx : (ipc_thread_main w).exited = true) :
    IpcAction.removeSocket ∈ (ipc_thread_main w).actions
    ∧ (ipc_thread_main w).result = Except.ok () := by
  cases h2 : (ipc_loop w.events).2 with
  | false =>
      exfalso
      simp [ipc_thread_main, hc, hb, hn, h2] at hx
  | true =>
      cases hp : w.preExisting <;>
        simp [ipc_thread_main, hc, hb, hn, h2, hp]

/-- C3 witness: a run that binds, configures non-blocking, and breaks
on a fatal accept error removes the socket file before returning. -/
theorem ipc_cleanup_after_bind_witness :
    IpcAction.removeSocket
      ∈ (ipc_thread_main (IpcWorld.mk true false true true [AcceptEvent.fatal])).actions :=
  (ipc_cleanup_after_bind (IpcWorld.mk true false true true [AcceptEvent.fatal])
    rfl rfl rfl (by decide)).1

/-- C5: the liveness client sends exactly one Liveness Result per run;
on a Uri-construction or connection failure it sends a failure result
and terminates without enqueuing any Window Message; on success it
sends a success result and, on every exit of its read loop, enqueues
exactly one `Close` Window Message (and none while the loop is still
running). -/
theorem websocket_one_result_one_close (w : WsWorld) :
    (websocket_main_thread w).liveness.length = 1
    ∧ (w.uriOk = false →
        (websocket_main_thread w).sent = []
        ∧ (websocket_main_thread w).liveness = [Except.error "uri build failed"]
        ∧ (websocket_main_thread w).terminated = true)
    ∧ (w.uriOk = true → w.connectOk = false →
        (websocket_main_thread w).sent = []
        ∧ (websocket_main_thread w).liveness = [Except.error "connect failed"]
        ∧ (websocket_main_thread w).terminated = true)
    ∧ (w.uriOk = true → w.connectOk = true →
        (websocket_main_thread w).liveness = [Except.ok ()]
        ∧ ((ws_loop w.events).2 = true →
            (websocket_main_thread w).sent = [WindowMessage.Close]
            ∧ (websocket_main_thread w).terminated = true)
        ∧ ((ws_loop w.events).2 = false →
            (websocket_main_thread w).sent = [])) := by
  rcases w with ⟨u, c, ev⟩
  cases u <;> cases c <;> cases h2 : (ws_loop ev).2 <;>
    simp [websocket_main_thread, h2]

/-- C5 witness: a connected run whose loop exits on a close frame
enqueues exactly the one `Close` message. -/
theorem websocket_one_result_one_close_witness :
    (websocket_main_thread ⟨true, true, [WsReadEvent.msg WsMessage.close]⟩).sent
      = [WindowMessage.Close] :=
  (((websocket_one_result_one_close
      ⟨true, true, [WsReadEvent.msg WsMessage.close]⟩).2.2.2 rfl rfl).2.1 rfl).1

/-- C7: a received Ping is answered with a Pong carrying the identical
payload, and has no other effect: the read loop continues with the
remaining events (same exit flag), and the Window Messages sent by the
thread are the same as if the Ping had not occurred. -/
theorem ws_ping_answered_with_pong (p : List Nat) (rest : List WsReadEvent) :
    ws_loop (WsReadEvent.msg (WsMessage.ping p) :: rest)
      = (WsMessage.pong p :: (ws_loop rest).1, (ws_loop rest).2)
    ∧ (websocket_main_thread ⟨true, true, WsReadEvent.msg (WsMessage.ping p) :: rest⟩).sent
        = (websocket_main_thread ⟨true, true, rest⟩).sent := by
  refine ⟨rfl, ?_⟩
  cases h : (ws_loop rest).2 <;> simp [websocket_main_thread, ws_loop, h]

end Pipeweaver
